import Mathlib

/-!
Verification of rio-cogeo's translation pipeline and structural validator.

This file gives a shallow embedding of the decision logic of
`rio_cogeo/cogeo.py` (cog_translate, cog_validate), `rio_cogeo/utils.py`
(band introspection) and `rio_cogeo/profiles.py` (the profile registry),
and proves the specification claims about them.

Modelling conventions:
- rasterio dataset handles are modelled by records of the observations the
  code reads from them (driver, sizes, band colorinterp/mask flags, TIFF
  tag items such as IFD_OFFSET and BLOCK_OFFSET_0_0, per-overview data).
- Python dicts of creation options are modelled by a record of optional
  fields (absent key = none); dict KeyError is an explicit error value.
- warnings.warn calls are modelled as values accumulated in a list;
  raised exceptions are modelled with Except.
- pure I/O stages of cog_translate (windowed copying, tag writing, the
  final copy) are not modelled; the embedding covers the option/parameter
  decision logic the claims are about.
-/

namespace RioCogeo

/-- Color interpretation of a raster band (the rasterio ColorInterp values
rio-cogeo inspects). -/
inductive ColorInterp where
  | undefined
  | gray
  | palette
  | red
  | green
  | blue
  | alpha
  deriving DecidableEq, Repr

/-- Mask flags of a raster band (rasterio MaskFlags). -/
inductive MaskFlag where
  | all_valid
  | per_dataset
  | alpha
  | nodata
  deriving DecidableEq, Repr

/-- Observations cog_translate reads from a source dataset handle. -/
structure SrcDataset where
  width : Nat
  height : Nat
  count : Nat
  nodata : Option Int
  colorinterp : List ColorInterp
  mask_flag_enums : List (List MaskFlag)
  deriving DecidableEq, Repr

/-- Embedding of rasterio's src.indexes: band indexes 1..count. -/
def SrcDataset.indexes (s : SrcDataset) : List Nat :=
  List.range' 1 s.count

/-- Embedding of utils.has_alpha_band: any band has the alpha mask flag or
alpha color interpretation. -/
def has_alpha_band (s : SrcDataset) : Bool :=
  s.mask_flag_enums.any (fun flags => flags.contains MaskFlag.alpha)
    || s.colorinterp.contains ColorInterp.alpha

/-- Embedding of utils.has_mask_band: some band has the per_dataset mask
flag without the alpha mask flag. -/
def has_mask_band (s : SrcDataset) : Bool :=
  s.mask_flag_enums.any
    (fun flags => flags.contains MaskFlag.per_dataset && !flags.contains MaskFlag.alpha)

/-- Modelled from the spec: utils.non_alpha_indexes is called by
cog_translate but is missing from src/utils.py (only its caller is in
src). Per the spec ("narrow indexes to the non-alpha bands"), it returns
the indexes of the source bands that are not alpha bands, an alpha band
being one whose color interpretation is alpha.  The alpha mask flag is
not a criterion: under rasterio semantics it marks the bands masked by an
alpha band (every color band of an RGBA source carries it), not the alpha
band itself, and the repository's tests pin a 3-band output for an RGBA
source under the jpeg profile. -/
def non_alpha_indexes (s : SrcDataset) : List Nat :=
  s.indexes.filter (fun b =>
    !((s.colorinterp.getD (b - 1) ColorInterp.undefined) == ColorInterp.alpha))

/-- Creation-option mapping (a Python dict in the source); absent keys are
none.  Driver-specific options that the embedded logic never reads
(PREDICTOR, ZSTD_LEVEL, MAX_Z_ERROR, BIGTIFF, ...) live in extra. -/
structure CogProfile where
  driver : Option String
  interleave : Option String
  tiled : Option Bool
  blockxsize : Option Nat
  blockysize : Option Nat
  compress : Option String
  photometric : Option String
  extra : List (String × String)
  deriving DecidableEq, Repr

/-- Profile with no keys set (dict ()). -/
def emptyProfile : CogProfile :=
  ⟨none, none, none, none, none, none, none, []⟩

/-- JPEGProfile defaults. -/
def jpegProfile : CogProfile :=
  ⟨some "GTiff", some "pixel", some true, some 512, some 512, some "JPEG", some "YCbCr", []⟩

/-- WEBPProfile defaults. -/
def webpProfile : CogProfile :=
  ⟨some "GTiff", some "pixel", some true, some 512, some 512, some "WEBP", none, []⟩

/-- ZSTDProfile defaults. -/
def zstdProfile : CogProfile :=
  ⟨some "GTiff", some "pixel", some true, some 512, some 512, some "ZSTD", none, []⟩

/-- ZSTDProfilePred2 defaults (no interleave key in the source class). -/
def zstdPred2Profile : CogProfile :=
  ⟨some "GTiff", none, some true, some 512, some 512, some "ZSTD", none,
    [("PREDICTOR", "2"), ("ZSTD_LEVEL", "1")]⟩

/-- ZSTDProfilePred3 defaults (no interleave key in the source class). -/
def zstdPred3Profile : CogProfile :=
  ⟨some "GTiff", none, some true, some 512, some 512, some "ZSTD", none,
    [("PREDICTOR", "3"), ("ZSTD_LEVEL", "9")]⟩

/-- LZWProfile defaults. -/
def lzwProfile : CogProfile :=
  ⟨some "GTiff", some "pixel", some true, some 512, some 512, some "LZW", none, []⟩

/-- DEFLATEProfile defaults. -/
def deflateProfile : CogProfile :=
  ⟨some "GTiff", some "pixel", some true, some 512, some 512, some "DEFLATE", none, []⟩

/-- PACKBITSProfile defaults. -/
def packbitsProfile : CogProfile :=
  ⟨some "GTiff", some "pixel", some true, some 512, some 512, some "PACKBITS", none, []⟩

/-- LZMAProfile defaults. -/
def lzmaProfile : CogProfile :=
  ⟨some "GTiff", some "pixel", some true, some 512, some 512, some "LZMA", none, []⟩

/-- LERCProfile defaults. -/
def lercProfile : CogProfile :=
  ⟨some "GTiff", some "pixel", some true, some 512, some 512, some "LERC", none, []⟩

/-- LERCDEFLATEProfile defaults. -/
def lercDeflateProfile : CogProfile :=
  ⟨some "GTiff", some "pixel", some true, some 512, some 512, some "LERC_DEFLATE", none, []⟩

/-- LERCDEFLATEProfile1cm defaults. -/
def lercDeflate1cmProfile : CogProfile :=
  ⟨some "GTiff", some "pixel", some true, some 512, some 512, some "LERC_DEFLATE", none,
    [("MAX_Z_ERROR", "0.01")]⟩

/-- LERCDEFLATEProfile10cm defaults. -/
def lercDeflate10cmProfile : CogProfile :=
  ⟨some "GTiff", some "pixel", some true, some 512, some 512, some "LERC_DEFLATE", none,
    [("MAX_Z_ERROR", "0.1")]⟩

/-- LERCDEFLATEProfile25cm defaults. -/
def lercDeflate25cmProfile : CogProfile :=
  ⟨some "GTiff", some "pixel", some true, some 512, some 512, some "LERC_DEFLATE", none,
    [("MAX_Z_ERROR", "0.25")]⟩

/-- LERCZSTDProfile defaults. -/
def lercZstdProfile : CogProfile :=
  ⟨some "GTiff", some "pixel", some true, some 512, some 512, some "LERC_ZSTD", none, []⟩

/-- LERCZSTDProfile1cm defaults. -/
def lercZstd1cmProfile : CogProfile :=
  ⟨some "GTiff", some "pixel", some true, some 512, some 512, some "LERC_ZSTD", none,
    [("MAX_Z_ERROR", "0.01")]⟩

/-- LERCZSTDProfile10cm defaults. -/
def lercZstd10cmProfile : CogProfile :=
  ⟨some "GTiff", some "pixel", some true, some 512, some 512, some "LERC_ZSTD", none,
    [("MAX_Z_ERROR", "0.1")]⟩

/-- LERCZSTDProfile25cm defaults. -/
def lercZstd25cmProfile : CogProfile :=
  ⟨some "GTiff", some "pixel", some true, some 512, some 512, some "LERC_ZSTD", none,
    [("MAX_Z_ERROR", "0.25")]⟩

/-- RAWProfile defaults (no compress key). -/
def rawProfile : CogProfile :=
  ⟨some "GTiff", some "pixel", some true, some 512, some 512, none, none, []⟩

/-- The registered COG profiles (COGProfiles.__init__), in registration
order. -/
def registryDefaults : List (String × CogProfile) :=
  [("jpeg", jpegProfile),
   ("webp", webpProfile),
   ("zstd", zstdProfile),
   ("zstd_pred2", zstdPred2Profile),
   ("zstd_pred3", zstdPred3Profile),
   ("lzw", lzwProfile),
   ("deflate", deflateProfile),
   ("packbits", packbitsProfile),
   ("lzma", lzmaProfile),
   ("lerc", lercProfile),
   ("lerc_deflate", lercDeflateProfile),
   ("lerc_deflate_1cm", lercDeflate1cmProfile),
   ("lerc_deflate_10cm", lercDeflate10cmProfile),
   ("lerc_deflate_25cm", lercDeflate25cmProfile),
   ("lerc_zstd", lercZstdProfile),
   ("lerc_zstd_1cm", lercZstd1cmProfile),
   ("lerc_zstd_10cm", lercZstd10cmProfile),
   ("lerc_zstd_25cm", lercZstd25cmProfile),
   ("raw", rawProfile)]

/-- Heap of profile objects: Python object references are modelled as
indices into this store, so that dict.copy() semantics (the registry entry
and the value handed to the caller are distinct objects) is observable. -/
def initStore : List CogProfile :=
  registryDefaults.map Prod.snd

/-- Name-to-reference table of the registry: entry i of the initial store
holds the profile registered under the i-th name. -/
def registryRefs : List (String × Nat) :=
  registryDefaults.enum.map (fun p => (p.2.1, p.1))

/-- ASCII lowercasing (Python str.lower on the keys and option values the
source lowercases). -/
def pyLower (s : String) : String :=
  String.mk (s.data.map Char.toLower)

/-- ASCII uppercasing (Python str.upper). -/
def pyUpper (s : String) : String :=
  String.mk (s.data.map Char.toUpper)

/-- Association-list lookup (Python dict lookup over distinct keys). -/
def lookupRef : List (String × Nat) → String → Option Nat
  | [], _ => none
  | (k, v) :: rest, key => if k == key then some v else lookupRef rest key

/-- Dereference a profile object. -/
def storeRead (st : List CogProfile) (r : Nat) : CogProfile :=
  st.getD r emptyProfile

/-- Mutate a profile object in place. -/
def storeWrite (st : List CogProfile) (r : Nat) (p : CogProfile) : List CogProfile :=
  st.set r p

/-- Embedding of COGProfiles.get: lowercase the key, raise KeyError when
the key is not registered, otherwise return a fresh copy of the stored
profile (a new object appended to the store). -/
def cog_profiles_get (st : List CogProfile) (key : String) :
    Except String (List CogProfile × Nat) :=
  let k := pyLower key
  match lookupRef registryRefs k with
  | none => Except.error (k ++ " is not a valid COG profile name")
  | some r => Except.ok (st ++ [storeRead st r], st.length)

/-- Profile value a caller observes from COGProfiles.get, none on KeyError. -/
def getProfile (st : List CogProfile) (key : String) : Option CogProfile :=
  match cog_profiles_get st key with
  | Except.ok (st1, r) => some (storeRead st1 r)
  | Except.error _ => none

/-- Decidable power-of-two test: n is a power of two exactly when
2 ^ log2 n recovers n. -/
def isPowerOfTwo (n : Nat) : Bool :=
  2 ^ Nat.log 2 n == n

/-- Exceptions raised by the embedded cog_translate decision logic. -/
inductive TErr where
  | incompatibleOptions
  | keyErr (k : String)
  | mathDomain
  deriving DecidableEq, Repr

/-- Warnings emitted by the embedded cog_translate decision logic. -/
inductive TWarning where
  | nodataAlphaMask
  | blockRasterUntiled
  | blockRasterShrunk (n : Nat)
  | ycbcrOneBand
  deriving DecidableEq, Repr

/-- Python truthiness of an optional colormap dict: None and the empty
dict are falsy. -/
def truthy (c : Option (List (Nat × Nat))) : Bool :=
  match c with
  | none => false
  | some l => !l.isEmpty

/-- Embedding of cog_translate's mask-policy correction (cogeo.py lines
165-177): under JPEG compression, a source nodata value or alpha band
forces add_mask and, when the band count is neither 1 nor 3, narrows the
indexes to the non-alpha bands.  Returns (add_mask, indexes, warnings). -/
def maskPolicy (src : SrcDataset) (kwargs : CogProfile) (add_mask : Bool)
    (nodata : Option Int) (indexes : List Nat) : Bool × List Nat × List TWarning :=
  if !add_mask && ((nodata.isSome || has_alpha_band src)
      && (pyLower (kwargs.compress.getD "") == "jpeg")) then
    (true,
     (if !(indexes.length == 1) && !(indexes.length == 3) then non_alpha_indexes src
      else indexes),
     [TWarning.nodataAlphaMask])
  else
    (add_mask, indexes, [])

/-- Embedding of cog_translate's block-size reconciliation (cogeo.py lines
179-201).  tilesize = min(blockxsize, blockysize); when a raster dimension
is below it, shrink to the largest power of two at most min(width, height)
(the exact value of Python's 2 ** int(math.log(m, 2))); below 64 the
tiling keys are dropped and the overview level forced to 0, otherwise both
block sizes are overwritten.  Missing dict keys give KeyError
(dst_kwargs["blockxsize"], dst_kwargs.pop("tiled")); math.log of 0 is a
domain error.  Returns (kwargs, overview_level, tilesize, warnings). -/
def blockReconcile (width height : Nat) (kwargs : CogProfile)
    (overview_level : Option Nat) :
    Except TErr (CogProfile × Option Nat × Nat × List TWarning) :=
  match kwargs.blockxsize, kwargs.blockysize with
  | none, _ => Except.error (TErr.keyErr "blockxsize")
  | some _, none => Except.error (TErr.keyErr "blockysize")
  | some bx, some bys =>
    let tilesize := min bx bys
    if width < tilesize || height < tilesize then
      if min width height == 0 then
        Except.error TErr.mathDomain
      else
        let t := 2 ^ Nat.log 2 (min width height)
        if t < 64 then
          match kwargs.tiled with
          | none => Except.error (TErr.keyErr "tiled")
          | some _ =>
            Except.ok
              ({ kwargs with blockxsize := none, blockysize := none, tiled := none },
               some 0, t, [TWarning.blockRasterUntiled])
        else
          Except.ok
            ({ kwargs with blockxsize := some t, blockysize := some t },
             overview_level, t, [TWarning.blockRasterShrunk t])
    else
      Except.ok (kwargs, overview_level, tilesize, [])

/-- Modelled from the spec: rasterio's get_maximum_overview_level is an
external collaborator (imported, not under src/); per the spec the
overview sequence "terminates once min(width,height)/factor ≤ minsize",
so the maximum level is the smallest L with min(width,height) ≤
minsize * 2 ^ L.  For minsize = 0 the collaborator's loop would not
terminate; cog_translate always passes a positive tilesize, and we return
0 in that unreachable case. -/
def get_maximum_overview_level (width height minsize : Nat) : Nat :=
  if h : 0 < minsize then
    Nat.find (show ∃ L, min width height ≤ minsize * 2 ^ L from
      ⟨min width height,
        le_trans (le_of_lt (Nat.lt_two_pow (min width height)))
          (Nat.le_mul_of_pos_left (2 ^ min width height) h)⟩)
  else 0

/-- Embedding of the overview decimation sequence built by cog_translate
(cogeo.py line 315): 2 ** j for j in range(1, overview_level + 1). -/
def overviewsFor (overview_level : Nat) : List Nat :=
  (List.range overview_level).map (fun j => 2 ^ (j + 1))

/-- Final state of cog_translate's decision logic: the creation options
passed to the final copy, the resolved band indexes, the mask flag, the
tile size and the overview sequence. -/
structure TransResult where
  kwargs : CogProfile
  indexes : List Nat
  add_mask : Bool
  nodata : Option Int
  tilesize : Nat
  overview_level : Nat
  overviews : List Nat
  deriving DecidableEq, Repr

/-- Embedding of cog_translate's decision logic (cogeo.py lines 140-417,
default path: web_optimized and use_cog_driver false), in source order:
resolve indexes/nodata, colormap/multiband check (raises before any
output is opened), mask-policy correction, block-size reconciliation,
YCbCr-on-one-band fix, overview level and decimation sequence.  Emitted
warnings are returned beside the Except result. -/
def cog_translate (src : SrcDataset) (kwargs0 : CogProfile)
    (indexes0 : Option (List Nat)) (nodata0 : Option Int) (add_mask0 : Bool)
    (overview_level0 : Option Nat) (colormap : Option (List (Nat × Nat))) :
    List TWarning × Except TErr TransResult :=
  let indexes1 := indexes0.getD src.indexes
  let nodata1 := if nodata0.isSome then nodata0 else src.nodata
  if truthy colormap && indexes1.length > 1 then
    ([], Except.error TErr.incompatibleOptions)
  else
    match maskPolicy src kwargs0 add_mask0 nodata1 indexes1 with
    | (add_mask1, indexes2, w1) =>
      match blockReconcile src.width src.height kwargs0 overview_level0 with
      | Except.error e => (w1, Except.error e)
      | Except.ok (kwargs1, ovl1, tilesize, w2) =>
        let ycbcr := (pyUpper (kwargs1.photometric.getD "") == "YCBCR")
          && (indexes2.length == 1)
        let kwargs2 :=
          if ycbcr then { kwargs1 with photometric := some "MINISBLACK" } else kwargs1
        let w3 : List TWarning := if ycbcr then [TWarning.ycbcrOneBand] else []
        let lvl :=
          match ovl1 with
          | some l => l
          | none => get_maximum_overview_level src.width src.height tilesize
        (w1 ++ w2 ++ w3,
         Except.ok ⟨kwargs2, indexes2, add_mask1, nodata1, tilesize, lvl, overviewsFor lvl⟩)

/-- Validation errors accumulated by cog_validate, one constructor per
errors.append site in the source. -/
inductive VError where
  | notGeoTIFF
  | externalOverviews
  | notTiled
  | mainIFDOffset (ofs : Nat)
  | overviewsNotSorted
  | invalidDecimation (dec ix : Nat)
  | ovrIFDBeforeMain (ix cur prev : Nat)
  | ovrIFDBeforePrev (ix cur prev : Nat)
  | smallestOvrDataBeforeIFD
  | mainDataBeforeIFD
  | ovrDataOrder (i j : Nat)
  | mainDataOrder (i : Nat)
  | ovrNotTiled (ix : Nat)
  deriving DecidableEq, Repr

/-- Validation warnings accumulated by cog_validate. -/
inductive VWarning where
  | noOverviews
  deriving DecidableEq, Repr

/-- Observations cog_validate reads from one overview level: its
decimation factor, its TIFF tag items, and the re-opened level's size and
tiling. -/
structure OvrLevel where
  decimation : Nat
  ifd_offset : Nat
  block_offset : Option Nat
  width : Nat
  height : Nat
  is_tiled : Bool
  deriving DecidableEq, Repr

/-- Observations cog_validate reads from the validated file. -/
structure TiffFile where
  driver : String
  files : List String
  width : Nat
  height : Nat
  is_tiled : Bool
  ifd_offset : Nat
  block_offset : Option Nat
  ovrs : List OvrLevel
  deriving DecidableEq, Repr

/-- Final extension of a path (pathlib.Path(x).suffix): with i the index
of the last dot of the path's last component, the slice from i when
0 < i < len - 1, else empty (dotless, dotfile and trailing-dot names have
no suffix). -/
def pathSuffix (s : String) : String :=
  let nm := (s.data.reverse.takeWhile (fun c => !(c == '/'))).reverse
  if nm.contains '.' then
    let tailLen := (nm.reverse.takeWhile (fun c => !(c == '.'))).length
    let i := nm.length - 1 - tailLen
    if 0 < i && i < nm.length - 1 then String.mk (nm.drop i) else ""
  else ""

/-- IFD byte offsets of the main image then each overview, in validation
order (the ifd_offsets list of the source). -/
def ifdOffsetSeq (f : TiffFile) : List Nat :=
  f.ifd_offset :: f.ovrs.map (fun o => o.ifd_offset)

/-- First-block byte offsets of the main image then each overview, with a
missing BLOCK_OFFSET_0_0 read as 0 (the data_offsets list of the source). -/
def dataOffsetSeq (f : TiffFile) : List Nat :=
  (f.block_offset.getD 0) :: f.ovrs.map (fun o => o.block_offset.getD 0)

/-- Overview decimation factors (src.overviews(1)). -/
def decimations (f : TiffFile) : List Nat :=
  f.ovrs.map (fun o => o.decimation)

/-- Insertion into a sorted list, used to model Python's sorted(). -/
def insertSorted (x : Nat) : List Nat → List Nat
  | [] => [x]
  | y :: ys => if x ≤ y then x :: y :: ys else y :: insertSorted x ys

/-- Python sorted() on a list of naturals (ascending). -/
def pySorted (l : List Nat) : List Nat :=
  l.foldr insertSorted []

/-- Check: external .ovr overview sidecar (cogeo.py line 471). -/
def errExternalOvr (f : TiffFile) : List VError :=
  if f.files.any (fun x => pathSuffix x == ".ovr") then [VError.externalOverviews] else []

/-- Check: large raster must be tiled (cogeo.py lines 477-481). -/
def errBigNotTiled (f : TiffFile) : List VError :=
  if f.width > 512 && f.height > 512 && !f.is_tiled then [VError.notTiled] else []

/-- Check: large raster should have overviews (cogeo.py lines 483-487). -/
def warnNoOverviews (f : TiffFile) : List VWarning :=
  if f.width > 512 && f.height > 512 && (decimations f).isEmpty then
    [VWarning.noOverviews]
  else []

/-- Check: main IFD offset bound (cogeo.py lines 489-505). -/
def errMainIFDOffset (f : TiffFile) : List VError :=
  if f.ifd_offset > 300 then [VError.mainIFDOffset f.ifd_offset] else []

/-- Check: overview decimations sorted ascending (cogeo.py line 511);
Python's l != sorted(l). -/
def errOverviewsSorted (f : TiffFile) : List VError :=
  if !(decimations f).isEmpty && !(decimations f == pySorted (decimations f)) then
    [VError.overviewsNotSorted]
  else []

/-- One iteration of the overview loop (cogeo.py lines 514-546):
decimation must exceed 1, and overview IFD offsets must increase. -/
def errOvrIter (f : TiffFile) (ix : Nat) (o : OvrLevel) : List VError :=
  (if !(o.decimation > 1) then [VError.invalidDecimation o.decimation ix] else []) ++
  (let cur := (ifdOffsetSeq f).getD (ix + 1) 0
   let prev := (ifdOffsetSeq f).getD ix 0
   if cur < prev then
     if ix == 0 then [VError.ovrIFDBeforeMain ix cur prev]
     else [VError.ovrIFDBeforePrev ix cur prev]
   else [])

/-- Errors of the whole overview loop, in iteration order. -/
def errOvrLoop (f : TiffFile) : List VError :=
  f.ovrs.enum.flatMap (fun p => errOvrIter f p.1 p.2)

/-- Check: first block of the last level after its own IFD (cogeo.py
lines 563-573); skipped when that block offset is absent (0). -/
def errDataLast (f : TiffFile) : List VError :=
  if !((dataOffsetSeq f).getLastD 0 == 0)
      && (dataOffsetSeq f).getLastD 0 < (ifdOffsetSeq f).getLastD 0 then
    if f.ovrs.length > 0 then [VError.smallestOvrDataBeforeIFD]
    else [VError.mainDataBeforeIFD]
  else []

/-- Check: data blocks of overviews descend from smallest to largest
(cogeo.py lines 575-580): for i from len(data_offsets)-2 down to 1, the
offset at i must be at least the offset at i+1. -/
def errDataChain (f : TiffFile) : List VError :=
  let d := dataOffsetSeq f
  let n := f.ovrs.length
  ((List.range (n - 1)).map (fun k => n - 1 - k)).flatMap (fun i =>
    if d.getD i 0 < d.getD (i + 1) 0 then [VError.ovrDataOrder (i - 1) i] else [])

/-- Check: the main image's first block comes after the first overview's
(cogeo.py lines 582-588). -/
def errDataMain (f : TiffFile) : List VError :=
  if (dataOffsetSeq f).length ≥ 2
      && (dataOffsetSeq f).getD 0 0 < (dataOffsetSeq f).getD 1 0 then
    [VError.mainDataOrder (f.ovrs.length - 1)]
  else []

/-- Check: each overview level larger than 512 in both dimensions must be
tiled (cogeo.py lines 590-594). -/
def errOvrTiling (f : TiffFile) : List VError :=
  f.ovrs.enum.flatMap (fun p =>
    if p.2.width > 512 && p.2.height > 512 && !p.2.is_tiled then
      [VError.ovrNotTiled p.1]
    else [])

/-- All validation errors of a GTiff file, in source order. -/
def validateErrors (f : TiffFile) : List VError :=
  errExternalOvr f ++ errBigNotTiled f ++ errMainIFDOffset f ++
  errOverviewsSorted f ++ errOvrLoop f ++ errDataLast f ++
  errDataChain f ++ errDataMain f ++ errOvrTiling f

/-- Embedding of cog_validate (cogeo.py lines 420-609): short-circuit on a
non-GTiff driver, otherwise accumulate errors and warnings and compute
is_valid = False if errors or (warnings and strict) else True. -/
def cog_validate (f : TiffFile) (strict : Bool) :
    Bool × List VError × List VWarning :=
  if f.driver == "GTiff" then
    let errors := validateErrors f
    let warns := warnNoOverviews f
    (!(!errors.isEmpty || (!warns.isEmpty && strict)), errors, warns)
  else
    (false, [VError.notGeoTIFF], [])

/-- Concrete file refuting C2: the main level's first block offset equals
its IFD offset (so it does not exceed it) and there are no overviews. -/
def c2File : TiffFile :=
  ⟨"GTiff", ["in.tif"], 100, 100, false, 8, some 8, []⟩

/-- Concrete file for the C2 witness: one overview whose first block
offset (40) is below its IFD offset (500). -/
def c2WitnessFile : TiffFile :=
  ⟨"GTiff", ["in.tif"], 100, 100, false, 8, some 600, [⟨2, 500, some 40, 50, 50, false⟩]⟩

/-- Concrete file for the C6 witness: main IFD offset 400. -/
def c6File : TiffFile :=
  ⟨"GTiff", ["in.tif"], 100, 100, false, 400, some 500, []⟩

/-- Concrete non-GTiff file for the C8 witness. -/
def c8File : TiffFile :=
  ⟨"PNG", ["in.png"], 100, 100, false, 8, some 8, []⟩

/-- Concrete 3-band RGB source refuting C5 and exercising C4. -/
def rgbSource : SrcDataset :=
  ⟨512, 512, 3, none,
   [ColorInterp.red, ColorInterp.green, ColorInterp.blue],
   [[MaskFlag.all_valid], [MaskFlag.all_valid], [MaskFlag.all_valid]]⟩

/-- Concrete 4-band RGBA source with nodata for the C4 witness. -/
def rgbaSource : SrcDataset :=
  ⟨512, 512, 4, some 0,
   [ColorInterp.red, ColorInterp.green, ColorInterp.blue, ColorInterp.alpha],
   [[MaskFlag.per_dataset, MaskFlag.alpha], [MaskFlag.per_dataset, MaskFlag.alpha],
    [MaskFlag.per_dataset, MaskFlag.alpha], [MaskFlag.per_dataset, MaskFlag.alpha]]⟩

/-- Creation options with a caller-supplied non-power-of-two blocksize 100
(cli.py create with --blocksize 100 over the deflate profile). -/
def blocksize100Kwargs : CogProfile :=
  ⟨some "GTiff", some "pixel", some true, some 100, some 100, some "DEFLATE", none,
    [("BIGTIFF", "IF_SAFER")]⟩

/-! Helper lemmas. -/

/-- Boolean form of the is_valid combination. -/
theorem bool_is_valid (e w s : Bool) : (!(!e || (!w && s))) = (e && !(s && !w)) := by
  cases e <;> cases w <;> cases s <;> rfl

/-- Shape of errors produced by the external-overview check. -/
theorem shape_errExternalOvr {f : TiffFile} {e : VError} (h : e ∈ errExternalOvr f) :
    e = VError.externalOverviews := by
  unfold errExternalOvr at h
  split at h <;> simp_all

/-- Shape of errors produced by the large-raster tiling check. -/
theorem shape_errBigNotTiled {f : TiffFile} {e : VError} (h : e ∈ errBigNotTiled f) :
    e = VError.notTiled := by
  unfold errBigNotTiled at h
  split at h <;> simp_all

/-- Shape of errors produced by the main-IFD-offset check. -/
theorem shape_errMainIFDOffset {f : TiffFile} {e : VError} (h : e ∈ errMainIFDOffset f) :
    e = VError.mainIFDOffset f.ifd_offset ∧ 300 < f.ifd_offset := by
  unfold errMainIFDOffset at h
  split at h <;> simp_all

/-- Shape of errors produced by the sortedness check. -/
theorem shape_errOverviewsSorted {f : TiffFile} {e : VError} (h : e ∈ errOverviewsSorted f) :
    e = VError.overviewsNotSorted := by
  unfold errOverviewsSorted at h
  split at h <;> simp_all

/-- Shape of errors produced by the overview loop. -/
theorem shape_errOvrLoop {f : TiffFile} {e : VError} (h : e ∈ errOvrLoop f) :
    (∃ d i, e = VError.invalidDecimation d i) ∨
    (∃ i c p, e = VError.ovrIFDBeforeMain i c p) ∨
    (∃ i c p, e = VError.ovrIFDBeforePrev i c p) := by
  unfold errOvrLoop at h
  simp only [List.mem_flatMap] at h
  obtain ⟨p, _, hmem⟩ := h
  unfold errOvrIter at hmem
  simp only [List.mem_append] at hmem
  rcases hmem with h1 | h2
  · split at h1
    · simp only [List.mem_singleton] at h1
      exact Or.inl ⟨_, _, h1⟩
    · simp at h1
  · split at h2
    · split at h2
      · simp only [List.mem_singleton] at h2
        exact Or.inr (Or.inl ⟨_, _, _, h2⟩)
      · simp only [List.mem_singleton] at h2
        exact Or.inr (Or.inr ⟨_, _, _, h2⟩)
    · simp at h2

/-- Shape of errors produced by the last-level data-after-IFD check. -/
theorem shape_errDataLast {f : TiffFile} {e : VError} (h : e ∈ errDataLast f) :
    e = VError.smallestOvrDataBeforeIFD ∨ e = VError.mainDataBeforeIFD := by
  unfold errDataLast at h
  split at h
  · split at h <;> simp_all
  · simp at h

/-- Shape of errors produced by the data-offset chain check. -/
theorem shape_errDataChain {f : TiffFile} {e : VError} (h : e ∈ errDataChain f) :
    ∃ i j, e = VError.ovrDataOrder i j := by
  unfold errDataChain at h
  simp only [List.mem_flatMap] at h
  obtain ⟨i, _, hmem⟩ := h
  split at hmem
  · simp only [List.mem_singleton] at hmem
    exact ⟨_, _, hmem⟩
  · simp at hmem

/-- Shape of errors produced by the main data-offset check. -/
theorem shape_errDataMain {f : TiffFile} {e : VError} (h : e ∈ errDataMain f) :
    ∃ i, e = VError.mainDataOrder i := by
  unfold errDataMain at h
  split at h
  · simp only [List.mem_singleton] at h
    exact ⟨_, h⟩
  · simp at h

/-- Shape of errors produced by the per-overview tiling check. -/
theorem shape_errOvrTiling {f : TiffFile} {e : VError} (h : e ∈ errOvrTiling f) :
    ∃ i, e = VError.ovrNotTiled i := by
  unfold errOvrTiling at h
  simp only [List.mem_flatMap] at h
  obtain ⟨p, _, hmem⟩ := h
  split at hmem
  · simp only [List.mem_singleton] at hmem
    exact ⟨_, hmem⟩
  · simp at hmem

/-! Claim theorems. -/

/-- C1: cog_validate returns is_valid = true exactly when the accumulated
errors list is empty and it is not the case that strict is set and the
warnings list is non-empty. -/
theorem c1_is_valid_formula (f : TiffFile) (strict : Bool) :
    (cog_validate f strict).1 =
      ((cog_validate f strict).2.1.isEmpty
        && !(strict && !(cog_validate f strict).2.2.isEmpty)) := by
  unfold cog_validate
  by_cases h : (f.driver == "GTiff") = true
  · simp only [h, if_true]
    exact bool_is_valid _ _ _
  · simp only [eq_false_of_ne_true h, if_false]
    simp

/-- C8: when the opened file's driver is not GTiff, cog_validate returns
immediately with is_valid = false, exactly one error and no warnings. -/
theorem c8_short_circuit (f : TiffFile) (strict : Bool) (h : f.driver ≠ "GTiff") :
    cog_validate f strict = (false, [VError.notGeoTIFF], []) := by
  have hb : (f.driver == "GTiff") = false := by
    simpa using h
  unfold cog_validate
  simp [hb]

/-- C8 witness: a PNG file short-circuits. -/
theorem c8_witness : cog_validate c8File false = (false, [VError.notGeoTIFF], []) :=
  c8_short_circuit c8File false (by decide)

/-- C6: for a GTiff file, cog_validate appends the main-IFD-offset error
iff the primary image directory's byte offset exceeds 300 bytes. -/
theorem c6_main_ifd_offset (f : TiffFile) (strict : Bool) (h : f.driver = "GTiff") :
    (∃ n, VError.mainIFDOffset n ∈ (cog_validate f strict).2.1) ↔ 300 < f.ifd_offset := by
  have hb : (f.driver == "GTiff") = true := by simpa using h
  have herrs : (cog_validate f strict).2.1 = validateErrors f := by
    unfold cog_validate
    simp [hb]
  rw [herrs]
  constructor
  · rintro ⟨n, hn⟩
    unfold validateErrors at hn
    simp only [List.mem_append] at hn
    rcases hn with ((((((((h1 | h2) | h3) | h4) | h5) | h6) | h7) | h8) | h9)
    · exact absurd (shape_errExternalOvr h1) (by simp)
    · exact absurd (shape_errBigNotTiled h2) (by simp)
    · exact (shape_errMainIFDOffset h3).2
    · exact absurd (shape_errOverviewsSorted h4) (by simp)
    · rcases shape_errOvrLoop h5 with ⟨_, _, hx⟩ | ⟨_, _, _, hx⟩ | ⟨_, _, _, hx⟩ <;>
        simp at hx
    · rcases shape_errDataLast h6 with hx | hx <;> simp at hx
    · obtain ⟨_, _, hx⟩ := shape_errDataChain h7
      simp at hx
    · obtain ⟨_, hx⟩ := shape_errDataMain h8
      simp at hx
    · obtain ⟨_, hx⟩ := shape_errOvrTiling h9
      simp at hx
  · intro hofs
    refine ⟨f.ifd_offset, ?_⟩
    unfold validateErrors
    simp only [List.mem_append]
    refine Or.inl (Or.inl (Or.inl (Or.inl (Or.inl (Or.inl (Or.inr ?_))))))
    unfold errMainIFDOffset
    simp [hofs]

/-- C6 witness: a GTiff file with main IFD offset 400 triggers the error,
and the iff instance holds at that file. -/
theorem c6_witness :
    (∃ n, VError.mainIFDOffset n ∈ (cog_validate c6File false).2.1) ↔
      300 < c6File.ifd_offset :=
  c6_main_ifd_offset c6File false rfl

/-- Membership in the full error list reduces to membership in the
last-level data check for its two constructors. -/
theorem mem_validateErrors_dataLast {f : TiffFile} {e : VError}
    (hshape : e = VError.smallestOvrDataBeforeIFD ∨ e = VError.mainDataBeforeIFD) :
    (e ∈ validateErrors f ↔ e ∈ errDataLast f) := by
  constructor
  · intro hm
    unfold validateErrors at hm
    simp only [List.mem_append] at hm
    rcases hm with ((((((((h1 | h2) | h3) | h4) | h5) | h6) | h7) | h8) | h9)
    · rcases hshape with hs | hs <;> rw [hs] at h1 <;>
        exact absurd (shape_errExternalOvr h1) (by simp)
    · rcases hshape with hs | hs <;> rw [hs] at h2 <;>
        exact absurd (shape_errBigNotTiled h2) (by simp)
    · rcases hshape with hs | hs <;> rw [hs] at h3 <;>
        rcases shape_errMainIFDOffset h3 with ⟨hx, _⟩ <;> simp at hx
    · rcases hshape with hs | hs <;> rw [hs] at h4 <;>
        exact absurd (shape_errOverviewsSorted h4) (by simp)
    · rcases hshape with hs | hs <;> rw [hs] at h5 <;>
        rcases shape_errOvrLoop h5 with ⟨_, _, hx⟩ | ⟨_, _, _, hx⟩ | ⟨_, _, _, hx⟩ <;>
        simp at hx
    · exact h6
    · rcases hshape with hs | hs <;> rw [hs] at h7 <;>
        obtain ⟨_, _, hx⟩ := shape_errDataChain h7 <;> simp at hx
    · rcases hshape with hs | hs <;> rw [hs] at h8 <;>
        obtain ⟨_, hx⟩ := shape_errDataMain h8 <;> simp at hx
    · rcases hshape with hs | hs <;> rw [hs] at h9 <;>
        obtain ⟨_, hx⟩ := shape_errOvrTiling h9 <;> simp at hx
  · intro hm
    unfold validateErrors
    simp only [List.mem_append]
    exact Or.inl (Or.inl (Or.inl (Or.inr hm)))

/-- C2 counterexample: c2File's main level has its first block offset (8)
equal to — hence not exceeding — its own IFD offset (8), yet cog_validate
accumulates no error at all, refuting the claim that every resolution
level gets the data-after-IFD check. -/
theorem c2_counterexample :
    cog_validate c2File false = (true, [], []) ∧
      c2File.block_offset.getD 0 ≤ c2File.ifd_offset := by
  constructor
  · decide
  · decide

/-- Characterization of the last-level data check's two errors. -/
theorem errDataLast_mem_iff (f : TiffFile) :
    (VError.smallestOvrDataBeforeIFD ∈ errDataLast f ↔
      (f.ovrs ≠ [] ∧ (dataOffsetSeq f).getLastD 0 ≠ 0 ∧
        (dataOffsetSeq f).getLastD 0 < (ifdOffsetSeq f).getLastD 0)) ∧
    (VError.mainDataBeforeIFD ∈ errDataLast f ↔
      (f.ovrs = [] ∧ (dataOffsetSeq f).getLastD 0 ≠ 0 ∧
        (dataOffsetSeq f).getLastD 0 < (ifdOffsetSeq f).getLastD 0)) := by
  by_cases h1 : (dataOffsetSeq f).getLast?.getD 0 = 0
  · have hz : errDataLast f = [] := by
      unfold errDataLast
      rw [if_neg (by simp [h1])]
    simp [hz, h1]
  · by_cases h2 : (dataOffsetSeq f).getLast?.getD 0 < (ifdOffsetSeq f).getLast?.getD 0
    · by_cases h3 : f.ovrs = []
      · have hz : errDataLast f = [VError.mainDataBeforeIFD] := by
          unfold errDataLast
          rw [if_pos (by simp [h1, h2]), if_neg (by simp [h3])]
        simp [hz, h1, h2, h3]
      · have hlen : f.ovrs.length > 0 := List.length_pos.mpr h3
        have hz : errDataLast f = [VError.smallestOvrDataBeforeIFD] := by
          unfold errDataLast
          rw [if_pos (by simp [h1, h2]), if_pos hlen]
        simp [hz, h1, h2, h3]
    · have hz : errDataLast f = [] := by
        unfold errDataLast
        rw [if_neg (by simp [h2])]
      simp [hz, h2]

/-- C2 amended: cog_validate appends a data-after-IFD error only for the
last resolution level — the smallest overview, or the main image when
there are no overviews — and only when that level's first block offset is
nonzero and strictly less than that level's IFD offset. -/
theorem c2_data_after_ifd_amended (f : TiffFile) (strict : Bool)
    (h : f.driver = "GTiff") :
    (VError.smallestOvrDataBeforeIFD ∈ (cog_validate f strict).2.1 ↔
      (f.ovrs ≠ [] ∧ (dataOffsetSeq f).getLastD 0 ≠ 0 ∧
        (dataOffsetSeq f).getLastD 0 < (ifdOffsetSeq f).getLastD 0)) ∧
    (VError.mainDataBeforeIFD ∈ (cog_validate f strict).2.1 ↔
      (f.ovrs = [] ∧ (dataOffsetSeq f).getLastD 0 ≠ 0 ∧
        (dataOffsetSeq f).getLastD 0 < (ifdOffsetSeq f).getLastD 0)) := by
  have hb : (f.driver == "GTiff") = true := by simpa using h
  have herrs : (cog_validate f strict).2.1 = validateErrors f := by
    unfold cog_validate
    simp [hb]
  rw [herrs,
    mem_validateErrors_dataLast (Or.inl rfl),
    mem_validateErrors_dataLast (Or.inr rfl)]
  exact errDataLast_mem_iff f

/-- C2 witness: a file with one overview whose first block offset (40)
falls below its IFD offset (500) — the smallest-overview error is
appended, the main-image variant is not. -/
theorem c2_witness :
    (VError.smallestOvrDataBeforeIFD ∈ (cog_validate c2WitnessFile false).2.1 ↔
      (c2WitnessFile.ovrs ≠ [] ∧ (dataOffsetSeq c2WitnessFile).getLastD 0 ≠ 0 ∧
        (dataOffsetSeq c2WitnessFile).getLastD 0 <
          (ifdOffsetSeq c2WitnessFile).getLastD 0)) ∧
    (VError.mainDataBeforeIFD ∈ (cog_validate c2WitnessFile false).2.1 ↔
      (c2WitnessFile.ovrs = [] ∧ (dataOffsetSeq c2WitnessFile).getLastD 0 ≠ 0 ∧
        (dataOffsetSeq c2WitnessFile).getLastD 0 <
          (ifdOffsetSeq c2WitnessFile).getLastD 0)) :=
  c2_data_after_ifd_amended c2WitnessFile false rfl

/-- Errors returned by block-size reconciliation are dict KeyErrors or a
math.log domain error, never IncompatibleOptions. -/
theorem blockReconcile_error_shape {w h : Nat} {kwargs : CogProfile}
    {ovl : Option Nat} {e : TErr}
    (he : blockReconcile w h kwargs ovl = Except.error e) :
    e = TErr.keyErr "blockxsize" ∨ e = TErr.keyErr "blockysize" ∨
      e = TErr.mathDomain ∨ e = TErr.keyErr "tiled" := by
  unfold blockReconcile at he
  rcases hbx : kwargs.blockxsize with _ | bx <;>
    rcases hby : kwargs.blockysize with _ | bys <;>
    rw [hbx, hby] at he <;> simp only [] at he
  · exact Or.inl (by injection he with h1; exact h1.symm)
  · exact Or.inl (by injection he with h1; exact h1.symm)
  · exact Or.inr (Or.inl (by injection he with h1; exact h1.symm))
  · split at he
    · split at he
      · exact Or.inr (Or.inr (Or.inl (by injection he with h1; exact h1.symm)))
      · split at he
        · split at he
          · exact Or.inr (Or.inr (Or.inr (by injection he with h1; exact h1.symm)))
          · exact absurd he (by simp)
        · exact absurd he (by simp)
    · exact absurd he (by simp)

/-- C5 counterexample: a colormap together with no explicit band indexes
on a 3-band source raises IncompatibleOptions (indexes default to all
source bands), refuting the claim that no explicit index avoids the
exception. -/
theorem c5_counterexample :
    (cog_translate rgbSource deflateProfile none none false none
        (some [(1, 2)])).2 = Except.error TErr.incompatibleOptions := by
  rfl

/-- C5 amended: cog_translate raises IncompatibleOptions — before any
output I/O, with no warnings emitted — exactly when a non-empty colormap
is supplied and the resolved band indexes (the explicit list, or all
source bands by default) number more than one. -/
theorem c5_colormap_error_iff (src : SrcDataset) (kwargs : CogProfile)
    (indexes0 : Option (List Nat)) (nodata0 : Option Int) (add_mask0 : Bool)
    (ovl : Option Nat) (colormap : Option (List (Nat × Nat))) :
    (cog_translate src kwargs indexes0 nodata0 add_mask0 ovl colormap).2 =
        Except.error TErr.incompatibleOptions ↔
      (truthy colormap = true ∧ 1 < (indexes0.getD src.indexes).length) := by
  unfold cog_translate
  by_cases hc : (truthy colormap
      && decide (1 < (indexes0.getD src.indexes).length)) = true
  · simp only [hc, if_true]
    simp only [Bool.and_eq_true, decide_eq_true_eq] at hc
    simpa using hc
  · simp only [hc, if_false]
    simp only [Bool.and_eq_true, decide_eq_true_eq, not_and] at hc
    rcases hmp : maskPolicy src kwargs add_mask0
        (if nodata0.isSome then nodata0 else src.nodata)
        (indexes0.getD src.indexes) with ⟨a, i, ws⟩
    rcases hr : blockReconcile src.width src.height kwargs ovl with e | ⟨k1, o1, ts, w2⟩
    · simp only []
      constructor
      · intro hx
        have he : e = TErr.incompatibleOptions := by injection hx
        rcases blockReconcile_error_shape hr with h1 | h1 | h1 | h1 <;>
          rw [he] at h1 <;> simp at h1
      · rintro ⟨h1, h2⟩
        exact absurd h2 (by simpa using hc h1)
    · simp only []
      constructor
      · intro hx
        simp at hx
      · rintro ⟨h1, h2⟩
        exact absurd h2 (by simpa using hc h1)

/-- Reconciliation branch: both raster dimensions at least tilesize leave
the creation options untouched. -/
theorem blockReconcile_fit {width height bx bys : Nat} {kwargs : CogProfile}
    {ovl : Option Nat} (hbx : kwargs.blockxsize = some bx)
    (hby : kwargs.blockysize = some bys)
    (hfit : ¬(width < min bx bys ∨ height < min bx bys)) :
    blockReconcile width height kwargs ovl =
      Except.ok (kwargs, ovl, min bx bys, []) := by
  unfold blockReconcile
  rw [hbx, hby]
  dsimp only
  rw [if_neg (by simpa using hfit)]

/-- Reconciliation branch: shrunk tile size below 64 drops the tiling
keys and forces the overview level to 0. -/
theorem blockReconcile_small {width height bx bys : Nat} {tv : Bool}
    {kwargs : CogProfile} {ovl : Option Nat}
    (hbx : kwargs.blockxsize = some bx) (hby : kwargs.blockysize = some bys)
    (htl : kwargs.tiled = some tv)
    (hless : width < min bx bys ∨ height < min bx bys)
    (hmin : 0 < min width height)
    (ht : 2 ^ Nat.log 2 (min width height) < 64) :
    blockReconcile width height kwargs ovl =
      Except.ok
        ({ kwargs with blockxsize := none, blockysize := none, tiled := none },
         some 0, 2 ^ Nat.log 2 (min width height),
         [TWarning.blockRasterUntiled]) := by
  unfold blockReconcile
  rw [hbx, hby]
  dsimp only
  rw [if_pos (by simpa using hless), if_neg (by simpa using Nat.pos_iff_ne_zero.mp hmin),
    if_pos (by simpa using ht), htl]

/-- Reconciliation branch: shrunk tile size at least 64 overwrites both
block-size keys. -/
theorem blockReconcile_shrink {width height bx bys : Nat}
    {kwargs : CogProfile} {ovl : Option Nat}
    (hbx : kwargs.blockxsize = some bx) (hby : kwargs.blockysize = some bys)
    (hless : width < min bx bys ∨ height < min bx bys)
    (hmin : 0 < min width height)
    (ht : 64 ≤ 2 ^ Nat.log 2 (min width height)) :
    blockReconcile width height kwargs ovl =
      Except.ok
        ({ kwargs with blockxsize := some (2 ^ Nat.log 2 (min width height)),
                       blockysize := some (2 ^ Nat.log 2 (min width height)) },
         ovl, 2 ^ Nat.log 2 (min width height),
         [TWarning.blockRasterShrunk (2 ^ Nat.log 2 (min width height))]) := by
  unfold blockReconcile
  rw [hbx, hby]
  dsimp only
  rw [if_pos (by simpa using hless), if_neg (by simpa using Nat.pos_iff_ne_zero.mp hmin),
    if_neg (by simpa using ht)]

/-- C3: block-size reconciliation in cog_translate: with tilesize =
min(blockxsize, blockysize), a raster smaller than tilesize in either
dimension shrinks the tile size to the largest power of two at most
min(width, height); below 64 the block-size and tiled keys are removed
and the overview level forced to 0, otherwise both block-size keys are
overwritten; each of those two branches emits one
IncompatibleBlockRasterSize warning; when both dimensions are at least
tilesize the options are unchanged and no warning is emitted. -/
theorem c3_block_reconciliation (width height bx bys : Nat) (tv : Bool)
    (kwargs : CogProfile) (ovl : Option Nat)
    (hbx : kwargs.blockxsize = some bx) (hby : kwargs.blockysize = some bys)
    (htl : kwargs.tiled = some tv) (hw : 0 < width) (hh : 0 < height) :
    (¬(width < min bx bys ∨ height < min bx bys) →
      blockReconcile width height kwargs ovl =
        Except.ok (kwargs, ovl, min bx bys, [])) ∧
    ((width < min bx bys ∨ height < min bx bys) →
      2 ^ Nat.log 2 (min width height) < 64 →
      blockReconcile width height kwargs ovl =
        Except.ok
          ({ kwargs with blockxsize := none, blockysize := none, tiled := none },
           some 0, 2 ^ Nat.log 2 (min width height),
           [TWarning.blockRasterUntiled])) ∧
    ((width < min bx bys ∨ height < min bx bys) →
      64 ≤ 2 ^ Nat.log 2 (min width height) →
      blockReconcile width height kwargs ovl =
        Except.ok
          ({ kwargs with blockxsize := some (2 ^ Nat.log 2 (min width height)),
                         blockysize := some (2 ^ Nat.log 2 (min width height)) },
           ovl, 2 ^ Nat.log 2 (min width height),
           [TWarning.blockRasterShrunk (2 ^ Nat.log 2 (min width height))])) ∧
    (2 ^ Nat.log 2 (min width height) ≤ min width height ∧
      min width height < 2 * 2 ^ Nat.log 2 (min width height)) := by
  have hmin : 0 < min width height := lt_min hw hh
  refine ⟨fun hfit => blockReconcile_fit hbx hby hfit,
    fun hless ht => blockReconcile_small hbx hby htl hless hmin ht,
    fun hless ht => blockReconcile_shrink hbx hby hless hmin ht, ?_, ?_⟩
  · exact Nat.pow_log_le_self 2 (Nat.pos_iff_ne_zero.mp hmin)
  · have := Nat.lt_pow_succ_log_self (by omega : 1 < 2) (min width height)
    calc min width height < 2 ^ (Nat.log 2 (min width height) + 1) := this
      _ = 2 * 2 ^ Nat.log 2 (min width height) := by
          rw [pow_succ]
          exact Nat.mul_comm _ _

/-- C3 witness: a 100x100 raster with 512x512 profile blocks is shrunk to
64 (the largest power of two at most 100 is 64, which is not below 64). -/
theorem c3_witness :
    blockReconcile 100 100 jpegProfile none =
      Except.ok
        ({ jpegProfile with blockxsize := some (2 ^ Nat.log 2 (min 100 100)),
                            blockysize := some (2 ^ Nat.log 2 (min 100 100)) },
         none, 2 ^ Nat.log 2 (min 100 100),
         [TWarning.blockRasterShrunk (2 ^ Nat.log 2 (min 100 100))]) :=
  (c3_block_reconciliation 100 100 512 512 true jpegProfile none rfl rfl rfl
    (by decide) (by decide)).2.2.1 (by decide)
    (by
      rw [show Nat.log 2 (min 100 100) = 6 from
        Nat.log_eq_of_pow_le_of_lt_pow (by norm_num) (by norm_num)]
      norm_num)

/-- Maximum overview level satisfies the stopping condition: the smallest
overview is at most minsize. -/
theorem gmol_le (width height minsize : Nat) (hs : 0 < minsize) :
    min width height ≤ minsize * 2 ^ get_maximum_overview_level width height minsize := by
  have hex : ∃ L, min width height ≤ minsize * 2 ^ L :=
    ⟨min width height,
      le_trans (le_of_lt (Nat.lt_two_pow (min width height)))
        (Nat.le_mul_of_pos_left (2 ^ min width height) hs)⟩
  unfold get_maximum_overview_level
  rw [dif_pos hs]
  exact Nat.find_spec hex

/-- Maximum overview level is minimal: below it the overview is still
larger than minsize. -/
theorem gmol_min_lt (width height minsize : Nat) (hs : 0 < minsize) (k : Nat)
    (hk : k < get_maximum_overview_level width height minsize) :
    minsize * 2 ^ k < min width height := by
  have hex : ∃ L, min width height ≤ minsize * 2 ^ L :=
    ⟨min width height,
      le_trans (le_of_lt (Nat.lt_two_pow (min width height)))
        (Nat.le_mul_of_pos_left (2 ^ min width height) hs)⟩
  have h0 : ¬(min width height ≤ minsize * 2 ^ k) := by
    unfold get_maximum_overview_level at hk
    rw [dif_pos hs] at hk
    exact Nat.find_min hex hk
  omega

/-- C7: without a caller-pinned overview level the decimation sequence is
2 ** j for j in 1..L with L the computed maximum level: strictly
increasing, each element a positive power of two, empty exactly when
L = 0, and for L > 0 the halving rule
min(width, height) / 2 ^ L ≤ tilesize < min(width, height) / 2 ^ (L - 1)
holds. -/
theorem c7_overview_sequence (width height tilesize : Nat) (hts : 0 < tilesize) :
    List.Pairwise (· < ·)
      (overviewsFor (get_maximum_overview_level width height tilesize)) ∧
    (∀ x ∈ overviewsFor (get_maximum_overview_level width height tilesize),
      ∃ k, 0 < k ∧ x = 2 ^ k) ∧
    (overviewsFor (get_maximum_overview_level width height tilesize) = [] ↔
      get_maximum_overview_level width height tilesize = 0) ∧
    (0 < get_maximum_overview_level width height tilesize →
      ((min width height : ℚ) /
          2 ^ get_maximum_overview_level width height tilesize ≤ (tilesize : ℚ) ∧
        (tilesize : ℚ) <
          (min width height : ℚ) /
            2 ^ (get_maximum_overview_level width height tilesize - 1))) := by
  refine ⟨?_, ?_, ?_, ?_⟩
  · unfold overviewsFor
    refine (List.pairwise_map).mpr ?_
    refine List.Pairwise.imp ?_ (List.pairwise_lt_range _)
    intro a b hab
    exact pow_lt_pow_right₀ (by omega) (by omega)
  · intro x hx
    unfold overviewsFor at hx
    simp only [List.mem_map, List.mem_range] at hx
    obtain ⟨j, _, hj⟩ := hx
    exact ⟨j + 1, by omega, hj.symm⟩
  · unfold overviewsFor
    simp [List.range_eq_nil]
  · intro hL
    have hle := gmol_le width height tilesize hts
    have hlt := gmol_min_lt width height tilesize hts
      (get_maximum_overview_level width height tilesize - 1) (by omega)
    constructor
    · rw [div_le_iff₀ (by positivity)]
      exact_mod_cast hle
    · rw [lt_div_iff₀ (by positivity)]
      exact_mod_cast hlt

/-- C7 witness: a 1024x1024 raster with tile size 256 has maximum level 2
and decimation sequence [2, 4]. -/
theorem c7_witness :
    List.Pairwise (· < ·)
      (overviewsFor (get_maximum_overview_level 1024 1024 256)) ∧
    (∀ x ∈ overviewsFor (get_maximum_overview_level 1024 1024 256),
      ∃ k, 0 < k ∧ x = 2 ^ k) ∧
    (overviewsFor (get_maximum_overview_level 1024 1024 256) = [] ↔
      get_maximum_overview_level 1024 1024 256 = 0) ∧
    (0 < get_maximum_overview_level 1024 1024 256 →
      ((min 1024 1024 : ℚ) /
          2 ^ get_maximum_overview_level 1024 1024 256 ≤ (256 : ℚ) ∧
        (256 : ℚ) <
          (min 1024 1024 : ℚ) /
            2 ^ (get_maximum_overview_level 1024 1024 256 - 1))) :=
  c7_overview_sequence 1024 1024 256 (by decide)

/-- Python's len(indexes) not in [1, 3] test, in propositional form. -/
theorem indexes_narrow_eq (src : SrcDataset) (l : List Nat) :
    (if !(l.length == 1) && !(l.length == 3) then non_alpha_indexes src else l) =
      (if l.length = 1 ∨ l.length = 3 then l else non_alpha_indexes src) := by
  by_cases h1 : l.length = 1 <;> by_cases h3 : l.length = 3 <;> simp [h1, h3]

/-- Narrowing the canonical 4-band RGBA source keeps its three color
bands, matching the repository test that pins a 3-band RGBA+jpeg output. -/
theorem non_alpha_indexes_rgba : non_alpha_indexes rgbaSource = [1, 2, 3] := by
  decide

/-- C4: when add_mask is not requested, the creation options request JPEG
compression, and the source has a nodata value or an alpha band,
cog_translate forces add_mask, emits the warning, and narrows the indexes
to the non-alpha bands when the selected band count is neither 1 nor 3. -/
theorem c4_jpeg_mask_policy (src : SrcDataset) (kwargs : CogProfile)
    (indexes0 : Option (List Nat)) (nodata0 : Option Int) (ovl : Option Nat)
    (bx bys : Nat) (tv : Bool)
    (hbx : kwargs.blockxsize = some bx) (hby : kwargs.blockysize = some bys)
    (htl : kwargs.tiled = some tv) (hw : 0 < src.width) (hh : 0 < src.height)
    (hjpeg : pyLower (kwargs.compress.getD "") = "jpeg")
    (hna : (if nodata0.isSome then nodata0 else src.nodata).isSome = true ∨
      has_alpha_band src = true) :
    ∃ warns res,
      cog_translate src kwargs indexes0 nodata0 false ovl none =
        (warns, Except.ok res) ∧
      TWarning.nodataAlphaMask ∈ warns ∧
      res.add_mask = true ∧
      res.indexes =
        (if (indexes0.getD src.indexes).length = 1 ∨
            (indexes0.getD src.indexes).length = 3
         then indexes0.getD src.indexes
         else non_alpha_indexes src) := by
  have hmp : maskPolicy src kwargs false
      (if nodata0.isSome then nodata0 else src.nodata) (indexes0.getD src.indexes) =
      (true,
       (if !((indexes0.getD src.indexes).length == 1)
           && !((indexes0.getD src.indexes).length == 3)
        then non_alpha_indexes src else indexes0.getD src.indexes),
       [TWarning.nodataAlphaMask]) := by
    rcases hna with h | h <;> simp [maskPolicy, h, hjpeg]
  unfold cog_translate
  rw [if_neg (by simp [truthy])]
  rw [hmp]
  dsimp only
  have hmin : 0 < min src.width src.height := lt_min hw hh
  by_cases hfit : src.width < min bx bys ∨ src.height < min bx bys
  · by_cases ht : 2 ^ Nat.log 2 (min src.width src.height) < 64
    · rw [blockReconcile_small hbx hby htl hfit hmin ht]
      refine ⟨_, _, rfl, by simp, rfl, ?_⟩
      exact indexes_narrow_eq src _
    · rw [blockReconcile_shrink hbx hby hfit hmin (by omega)]
      refine ⟨_, _, rfl, by simp, rfl, ?_⟩
      exact indexes_narrow_eq src _
  · rw [blockReconcile_fit hbx hby hfit]
    refine ⟨_, _, rfl, by simp, rfl, ?_⟩
    exact indexes_narrow_eq src _

/-- C4 witness: a 4-band RGBA source with nodata under the jpeg profile
gets add_mask forced and its indexes narrowed to the non-alpha bands. -/
theorem c4_witness :
    ∃ warns res,
      cog_translate rgbaSource jpegProfile none none false none none =
        (warns, Except.ok res) ∧
      TWarning.nodataAlphaMask ∈ warns ∧
      res.add_mask = true ∧
      res.indexes =
        (if (Option.getD none rgbaSource.indexes).length = 1 ∨
            (Option.getD none rgbaSource.indexes).length = 3
         then Option.getD none rgbaSource.indexes
         else non_alpha_indexes rgbaSource) :=
  c4_jpeg_mask_policy rgbaSource jpegProfile none none none 512 512 true
    rfl rfl rfl (by decide) (by decide) (by decide) (Or.inl (by decide))

/-- Power-of-two test is sound and complete for positive naturals. -/
theorem isPowerOfTwo_iff {n : Nat} :
    isPowerOfTwo n = true ↔ ∃ k, n = 2 ^ k := by
  unfold isPowerOfTwo
  constructor
  · intro h
    have h2 : 2 ^ Nat.log 2 n = n := by simpa using h
    exact ⟨Nat.log 2 n, h2.symm⟩
  · rintro ⟨k, rfl⟩
    simp [Nat.log_pow (by omega : 1 < 2)]

/-- C9 counterexample: a caller-supplied blocksize of 100 (cli.py create
--blocksize) passes block-size reconciliation untouched on a 1000x1000
raster, so the finalized options carry blockxsize = blockysize = 100,
which is not a power of two. -/
theorem c9_counterexample :
    blockReconcile 1000 1000 blocksize100Kwargs none =
      Except.ok (blocksize100Kwargs, none, 100, []) ∧
    blocksize100Kwargs.blockxsize = some 100 ∧
    isPowerOfTwo 100 = false := by
  refine ⟨rfl, rfl, ?_⟩
  unfold isPowerOfTwo
  rw [show Nat.log 2 100 = 6 from
    Nat.log_eq_of_pow_le_of_lt_pow (by norm_num) (by norm_num)]
  decide

/-- C9 amended: all registered profile defaults carry block sizes of 512,
a power of two at least 64, and block-size reconciliation either leaves
the block-size keys unchanged, removes them both, or overwrites both with
a power of two at least 64; a caller-supplied block size that fits the
raster is passed through unchecked. -/
theorem c9_block_size_invariant :
    (∀ q ∈ registryDefaults,
      q.2.blockxsize = some 512 ∧ q.2.blockysize = some 512) ∧
    (∃ k, (512 : Nat) = 2 ^ k) ∧ (64 : Nat) ≤ 512 ∧
    (∀ width height kwargs ovl out,
      blockReconcile width height kwargs ovl = Except.ok out →
      (out.1.blockxsize = kwargs.blockxsize ∧
        out.1.blockysize = kwargs.blockysize) ∨
      (out.1.blockxsize = none ∧ out.1.blockysize = none) ∨
      (∃ t, out.1.blockxsize = some t ∧ out.1.blockysize = some t ∧
        64 ≤ t ∧ ∃ k, t = 2 ^ k)) := by
  refine ⟨by decide, ⟨9, by norm_num⟩, by norm_num, ?_⟩
  intro width height kwargs ovl out hok
  unfold blockReconcile at hok
  rcases hbx : kwargs.blockxsize with _ | bx <;> rw [hbx] at hok
  · simp at hok
  rcases hby : kwargs.blockysize with _ | bys <;> rw [hby] at hok
  · simp at hok
  dsimp only at hok
  split at hok
  · split at hok
    · simp at hok
    · split at hok
      · split at hok
        · simp at hok
        · injection hok with h1
          rw [← h1]
          exact Or.inr (Or.inl ⟨rfl, rfl⟩)
      · rename_i hge
        injection hok with h1
        rw [← h1]
        exact Or.inr (Or.inr ⟨2 ^ Nat.log 2 (min width height), rfl, rfl,
          by omega, ⟨Nat.log 2 (min width height), rfl⟩⟩)
  · injection hok with h1
    rw [← h1]
    exact Or.inl ⟨hbx, hby⟩

/-- C9 witness: the pass-through case at the C9 counterexample's input. -/
theorem c9_witness :
    ((blocksize100Kwargs, (none : Option Nat), 100,
        ([] : List TWarning)).1.blockxsize = blocksize100Kwargs.blockxsize ∧
      (blocksize100Kwargs, (none : Option Nat), 100,
        ([] : List TWarning)).1.blockysize = blocksize100Kwargs.blockysize) ∨
    ((blocksize100Kwargs, (none : Option Nat), 100,
        ([] : List TWarning)).1.blockxsize = none ∧
      (blocksize100Kwargs, (none : Option Nat), 100,
        ([] : List TWarning)).1.blockysize = none) ∨
    (∃ t, (blocksize100Kwargs, (none : Option Nat), 100,
        ([] : List TWarning)).1.blockxsize = some t ∧
      (blocksize100Kwargs, (none : Option Nat), 100,
        ([] : List TWarning)).1.blockysize = some t ∧
      64 ≤ t ∧ ∃ k, t = 2 ^ k) :=
  c9_block_size_invariant.2.2.2 1000 1000 blocksize100Kwargs none
    (blocksize100Kwargs, none, 100, []) rfl

/-- Association lookup returns a pair of the list. -/
theorem lookupRef_mem {l : List (String × Nat)} {key : String} {v : Nat}
    (h : lookupRef l key = some v) : (key, v) ∈ l := by
  induction l with
  | nil => simp [lookupRef] at h
  | cons q rest ih =>
    rcases q with ⟨k, w⟩
    simp only [lookupRef] at h
    by_cases hk : (k == key) = true
    · rw [if_pos hk] at h
      injection h with h1
      have : k = key := by simpa using hk
      rw [this, h1]
      exact List.mem_cons_self _ _
    · rw [if_neg hk] at h
      exact List.mem_cons_of_mem _ (ih h)

/-- Reading the object just appended to the store. -/
theorem storeRead_concat (l : List CogProfile) (x : CogProfile) :
    storeRead (l ++ [x]) l.length = x := by
  unfold storeRead
  rw [List.getD_eq_getElem?_getD, List.getElem?_concat_length]
  rfl

/-- Writing through a fresh reference does not disturb existing objects. -/
theorem storeWrite_frame (l : List CogProfile) (x p : CogProfile) (r1 : Nat)
    (h : r1 < l.length) :
    storeRead (storeWrite (l ++ [x]) l.length p) r1 = storeRead l r1 := by
  unfold storeRead storeWrite
  rw [List.getD_eq_getElem?_getD, List.getD_eq_getElem?_getD,
    List.getElem?_set_ne (by omega : l.length ≠ r1),
    List.getElem?_append, if_pos h]

/-- Registry references all point inside the initial store. -/
theorem registryRefs_bound : ∀ q ∈ registryRefs, q.2 < initStore.length := by
  decide

/-- C10: cog_profiles.get lowercases its key, raises KeyError exactly when
the lowered key is unregistered, and otherwise returns a fresh copy of the
stored profile: the reference handed back is the new store cell, mutating
it leaves every registry cell unchanged, and a subsequent get of the same
name returns the original defaults. -/
theorem c10_profiles_get (key : String) :
    ((∃ e, cog_profiles_get initStore key = Except.error e) ↔
      lookupRef registryRefs (pyLower key) = none) ∧
    (∀ st1 r, cog_profiles_get initStore key = Except.ok (st1, r) →
      r = initStore.length ∧
      (∃ r0, lookupRef registryRefs (pyLower key) = some r0 ∧
        st1 = initStore ++ [storeRead initStore r0] ∧
        storeRead st1 r = storeRead initStore r0) ∧
      (∀ p r1, r1 < initStore.length →
        storeRead (storeWrite st1 r p) r1 = storeRead initStore r1) ∧
      (∀ p, getProfile (storeWrite st1 r p) key = getProfile initStore key)) := by
  rcases hl : lookupRef registryRefs (pyLower key) with _ | r0
  · have hget : cog_profiles_get initStore key =
        Except.error (pyLower key ++ " is not a valid COG profile name") := by
      simp only [cog_profiles_get]
      rw [hl]
    constructor
    · exact ⟨fun _ => rfl, fun _ => ⟨_, hget⟩⟩
    · intro st1 r hok
      rw [hget] at hok
      simp at hok
  · have hget : cog_profiles_get initStore key =
        Except.ok (initStore ++ [storeRead initStore r0], initStore.length) := by
      simp only [cog_profiles_get]
      rw [hl]
    have hr0 : r0 < initStore.length :=
      registryRefs_bound _ (lookupRef_mem hl)
    constructor
    · simp [hget]
    · intro st1 r hok
      rw [hget] at hok
      simp only [Except.ok.injEq, Prod.mk.injEq] at hok
      obtain ⟨hst, hr⟩ := hok
      subst hst
      subst hr
      refine ⟨rfl, ⟨r0, rfl, rfl, storeRead_concat _ _⟩, ?_, ?_⟩
      · intro p r1 h1
        exact storeWrite_frame initStore _ p r1 h1
      · intro p
        have hget2 : cog_profiles_get
            (storeWrite (initStore ++ [storeRead initStore r0])
              initStore.length p) key =
            Except.ok
              (storeWrite (initStore ++ [storeRead initStore r0])
                  initStore.length p ++
                [storeRead
                  (storeWrite (initStore ++ [storeRead initStore r0])
                    initStore.length p) r0],
               (storeWrite (initStore ++ [storeRead initStore r0])
                  initStore.length p).length) := by
          simp only [cog_profiles_get]
          rw [hl]
        unfold getProfile
        rw [hget, hget2]
        dsimp only
        rw [storeRead_concat, storeRead_concat,
          storeWrite_frame initStore _ p r0 hr0]

/-- C10 witness: getting "JPEG" succeeds (lowercased to "jpeg"), returns
the jpeg defaults as a fresh cell, and mutating that cell leaves the
registry cell for "jpeg" unchanged. -/
theorem c10_witness :
    (initStore.length : Nat) = initStore.length ∧
    (∃ r0, lookupRef registryRefs (pyLower "JPEG") = some r0 ∧
      initStore ++ [storeRead initStore 0] = initStore ++ [storeRead initStore r0] ∧
      storeRead (initStore ++ [storeRead initStore 0]) initStore.length =
        storeRead initStore r0) ∧
    (∀ p r1, r1 < initStore.length →
      storeRead
        (storeWrite (initStore ++ [storeRead initStore 0]) initStore.length p)
        r1 = storeRead initStore r1) ∧
    (∀ p, getProfile
        (storeWrite (initStore ++ [storeRead initStore 0]) initStore.length p)
        "JPEG" = getProfile initStore "JPEG") :=
  (c10_profiles_get "JPEG").2 (initStore ++ [storeRead initStore 0])
    initStore.length (by rfl)

end RioCogeo
